import Mathlib

/-!
# Verification of the compensation calculator core

Shallow embedding of `app/services.py` and the batch loop of `app/routes.py`.
Python floats are modelled as rationals (`ℚ`); Python's `round(x, 2)`
(round-half-to-even at two decimals) is modelled by `round2`; a Python
function that may `raise ValueError` is modelled as returning
`Except String _`, the error payload being the exception message.
-/

instance {ε α : Type} [DecidableEq ε] [DecidableEq α] : DecidableEq (Except ε α) := by
  intro a b
  cases a <;> cases b
  case error.error e f => exact decidable_of_iff (e = f) (by simp)
  case ok.ok x y => exact decidable_of_iff (x = y) (by simp)
  all_goals exact isFalse (by simp)

/-- Python's builtin `round` to the nearest integer, ties to even
(banker's rounding), on rationals. -/
def round_half_even (x : ℚ) : ℤ :=
  if x - (⌊x⌋ : ℚ) < 1/2 then ⌊x⌋
  else if 1/2 < x - (⌊x⌋ : ℚ) then ⌊x⌋ + 1
  else if ⌊x⌋ % 2 = 0 then ⌊x⌋ else ⌊x⌋ + 1

/-- Python's `round(x, 2)`: round to two decimal places, ties to even. -/
def round2 (x : ℚ) : ℚ := (round_half_even (100 * x) : ℚ) / 100

/-- Parameters of one row of `BASE_SALARY_PARAMS`. -/
structure BaseParams where
  fixed_floor : ℚ
  revenue_factor : ℚ
deriving DecidableEq

/-- `BASE_SALARY_PARAMS` from `app/services.py`. -/
def BASE_SALARY_PARAMS : List (String × BaseParams) :=
  [("Junior", ⟨50000, 5/1000⟩),
   ("Mid-level", ⟨75000, 10/1000⟩),
   ("Senior", ⟨100000, 15/1000⟩),
   ("Executive", ⟨150000, 20/1000⟩)]

/-- `TARGET_BONUS_PERCENT` from `app/services.py`. -/
def TARGET_BONUS_PERCENT : List (String × ℚ) :=
  [("Junior", 30/100),
   ("Mid-level", 60/100),
   ("Senior", 100/100),
   ("Executive", 125/100)]

/-- One row of `LTI_RULES`. -/
structure LtiRule where
  deferral_pct : ℚ
  equity_eligible : Bool
  equity_factor : ℚ
  fund_investment_pct : ℚ
deriving DecidableEq

/-- `LTI_RULES` from `app/services.py`. -/
def LTI_RULES : List (String × LtiRule) :=
  [("Junior", ⟨10/100, false, 0, 5/100⟩),
   ("Mid-level", ⟨20/100, true, 25/100, 10/100⟩),
   ("Senior", ⟨30/100, true, 40/100, 15/100⟩),
   ("Executive", ⟨40/100, true, 50/100, 20/100⟩)]

def SALARY_CAP_LOWER_BOUND : ℚ := 85/100
def SALARY_CAP_UPPER_BOUND : ℚ := 115/100

/-- The four configured role levels (the keys shared by all three rule
tables). -/
def validRoles : List String := ["Junior", "Mid-level", "Senior", "Executive"]

/-- The `fixed_floor` entry of `BASE_SALARY_PARAMS` for a role (0 if absent). -/
def fixedFloor (role : String) : ℚ :=
  match BASE_SALARY_PARAMS.lookup role with
  | some p => p.fixed_floor
  | none => 0

/-- The `revenue_factor` entry of `BASE_SALARY_PARAMS` for a role (0 if absent). -/
def revenueFactor (role : String) : ℚ :=
  match BASE_SALARY_PARAMS.lookup role with
  | some p => p.revenue_factor
  | none => 0

/-- The `TARGET_BONUS_PERCENT` entry for a role (0 if absent). -/
def targetBonusPercent (role : String) : ℚ :=
  match TARGET_BONUS_PERCENT.lookup role with
  | some q => q
  | none => 0

/-- The `deferral_pct` entry of `LTI_RULES` for a role (0 if absent). -/
def deferralPercent (role : String) : ℚ :=
  match LTI_RULES.lookup role with
  | some r => r.deferral_pct
  | none => 0

/-- The `fund_investment_pct` entry of `LTI_RULES` for a role (0 if absent). -/
def fundInvestmentPercent (role : String) : ℚ :=
  match LTI_RULES.lookup role with
  | some r => r.fund_investment_pct
  | none => 0

/-- The `equity_factor` entry of `LTI_RULES` for a role (0 if absent). -/
def equityFactor (role : String) : ℚ :=
  match LTI_RULES.lookup role with
  | some r => r.equity_factor
  | none => 0

/-- The `equity_eligible` entry of `LTI_RULES` for a role (false if absent). -/
def equityEligible (role : String) : Bool :=
  match LTI_RULES.lookup role with
  | some r => r.equity_eligible
  | none => false

/-- `calculate_base_salary` from `app/services.py`. -/
def calculate_base_salary (role_level : String) (team_revenue last_years_salary : ℚ) :
    Except String ℚ :=
  match BASE_SALARY_PARAMS.lookup role_level with
  | none => .error ("Invalid role level: " ++ role_level)
  | some params =>
    let potential_salary := params.fixed_floor + team_revenue * params.revenue_factor
    let lower_cap := last_years_salary * SALARY_CAP_LOWER_BOUND
    let upper_cap := last_years_salary * SALARY_CAP_UPPER_BOUND
    let calculated_base := max lower_cap (min potential_salary upper_cap)
    .ok (round2 calculated_base)

/-- `calculate_performance_bonus` from `app/services.py`.  Note that the
multiplication uses the unrounded `target_bonus_amount`; rounding happens
only on the returned pair. -/
def calculate_performance_bonus (calculated_base_salary : ℚ) (role_level : String)
    (performance_multiplier : ℚ) : Except String (ℚ × ℚ) :=
  match TARGET_BONUS_PERCENT.lookup role_level with
  | none => .error ("Invalid role level: " ++ role_level)
  | some target_pct =>
    let target_bonus_amount := calculated_base_salary * target_pct
    let performance_bonus := target_bonus_amount * performance_multiplier
    .ok (round2 target_bonus_amount, round2 performance_bonus)

/-- The dictionary returned by `calculate_lti_and_cash`. -/
structure LtiComponents where
  deferred_cash : ℚ
  equity_award_value : ℚ
  fund_investment_amount : ℚ
  immediate_cash_bonus : ℚ
deriving DecidableEq

/-- `calculate_lti_and_cash` from `app/services.py`. -/
def calculate_lti_and_cash (performance_bonus target_bonus_amount : ℚ)
    (role_level : String) : Except String LtiComponents :=
  match LTI_RULES.lookup role_level with
  | none => .error ("Invalid role level: " ++ role_level)
  | some rules =>
    let deferred_cash := performance_bonus * rules.deferral_pct
    let fund_investment_amount := performance_bonus * rules.fund_investment_pct
    let equity_award_value := if rules.equity_eligible then
      target_bonus_amount * rules.equity_factor else 0
    let immediate_cash_bonus := performance_bonus - deferred_cash - fund_investment_amount
    .ok ⟨round2 deferred_cash, round2 equity_award_value,
         round2 fund_investment_amount, round2 immediate_cash_bonus⟩

/-- The nested `lti_breakdown` dictionary of the orchestrator's result. -/
structure LtiBreakdown where
  deferred_cash : ℚ
  equity_award_value : ℚ
  fund_investment_amount : ℚ
deriving DecidableEq

/-- The success dictionary returned by `calculate_total_compensation`. -/
structure CompResult where
  calculated_base_salary : ℚ
  target_bonus_amount : ℚ
  performance_bonus : ℚ
  lti_breakdown : LtiBreakdown
  immediate_cash_bonus : ℚ
deriving DecidableEq

/-- `calculate_total_compensation` from `app/services.py`: the three stages in
sequence; a `ValueError` raised by any stage is caught and returned as the
error dictionary, modelled as `Except.error` carrying `str(e)`. -/
def calculate_total_compensation (role_level : String)
    (team_revenue last_years_salary performance_multiplier : ℚ) :
    Except String CompResult :=
  match calculate_base_salary role_level team_revenue last_years_salary with
  | .error e => .error e
  | .ok base_salary =>
    match calculate_performance_bonus base_salary role_level performance_multiplier with
    | .error e => .error e
    | .ok (target_bonus, perf_bonus) =>
      match calculate_lti_and_cash perf_bonus target_bonus role_level with
      | .error e => .error e
      | .ok lti =>
        .ok ⟨base_salary, target_bonus, perf_bonus,
             ⟨lti.deferred_cash, lti.equity_award_value, lti.fund_investment_amount⟩,
             lti.immediate_cash_bonus⟩

/-- One input record of the batch endpoint (a row of the uploaded file,
already coerced to its field types). -/
structure InputRecord where
  role_level : String
  team_revenue : ℚ
  last_years_salary : ℚ
  performance_multiplier : ℚ
deriving DecidableEq

/-- The row loop of `batch_calculate_compensation` in `app/routes.py`: each
row is paired (merged) with its own single-record result or error, in input
order. -/
def batch_calculate_compensation (rows : List InputRecord) :
    List (InputRecord × Except String CompResult) :=
  rows.map (fun row =>
    (row, calculate_total_compensation row.role_level row.team_revenue
            row.last_years_salary row.performance_multiplier))

/-! ## Evaluation and bound lemmas for `round2` -/

theorem round2_eq_down (x : ℚ) (f : ℤ) (h1 : (f:ℚ) ≤ 100*x) (h2 : 100*x < (f:ℚ) + 1/2) :
    round2 x = (f:ℚ)/100 := by
  have hf : ⌊100*x⌋ = f := by
    rw [Int.floor_eq_iff]
    exact ⟨h1, by linarith⟩
  unfold round2 round_half_even
  rw [hf, if_pos (by linarith)]

theorem round2_eq_up (x : ℚ) (f : ℤ) (h1 : (f:ℚ) + 1/2 < 100*x) (h2 : 100*x < (f:ℚ) + 1) :
    round2 x = ((f:ℚ)+1)/100 := by
  have hf : ⌊100*x⌋ = f := by
    rw [Int.floor_eq_iff]
    exact ⟨by linarith, by linarith⟩
  unfold round2 round_half_even
  rw [hf, if_neg (by linarith), if_pos (by linarith)]
  push_cast
  ring_nf

theorem round_half_even_abs (x : ℚ) : |((round_half_even x : ℤ) : ℚ) - x| ≤ 1/2 := by
  have h1 : (⌊x⌋ : ℚ) ≤ x := Int.floor_le x
  have h2 : x < (⌊x⌋ : ℚ) + 1 := Int.lt_floor_add_one x
  unfold round_half_even
  split_ifs <;> rw [abs_le] <;> constructor <;> push_cast <;> linarith

/-- Rounding to two decimals moves a rational by at most half a cent. -/
theorem round2_abs (x : ℚ) : |round2 x - x| ≤ 1/200 := by
  have h := round_half_even_abs (100 * x)
  rw [abs_le] at h
  unfold round2
  rw [abs_le]
  constructor <;> [linarith [h.1]; linarith [h.2]]

theorem round_half_even_ge_floor (x : ℚ) : ⌊x⌋ ≤ round_half_even x := by
  unfold round_half_even
  split_ifs <;> omega

/-- `round2` preserves non-negativity. -/
theorem round2_nonneg (x : ℚ) (h : 0 ≤ x) : 0 ≤ round2 x := by
  have h0 : (0:ℤ) ≤ ⌊100*x⌋ := Int.floor_nonneg.mpr (by linarith)
  have h1 : (0:ℤ) ≤ round_half_even (100*x) := le_trans h0 (round_half_even_ge_floor _)
  unfold round2
  have : (0:ℚ) ≤ (round_half_even (100*x) : ℚ) := by exact_mod_cast h1
  linarith

theorem round2_zero : round2 0 = 0 := by
  rw [round2_eq_down 0 0 (by norm_num) (by norm_num)]
  norm_num

/-! ## Stage unfolding lemmas for valid roles -/

theorem mem_validRoles_iff (role : String) :
    role ∈ validRoles ↔
      role = "Junior" ∨ role = "Mid-level" ∨ role = "Senior" ∨ role = "Executive" := by
  simp [validRoles]

theorem base_salary_ok (role : String) (h : role ∈ validRoles) (tr ls : ℚ) :
    calculate_base_salary role tr ls =
      .ok (round2 (max (ls * SALARY_CAP_LOWER_BOUND)
        (min (fixedFloor role + tr * revenueFactor role) (ls * SALARY_CAP_UPPER_BOUND)))) := by
  rw [mem_validRoles_iff] at h
  rcases h with rfl | rfl | rfl | rfl <;>
    simp [calculate_base_salary, fixedFloor, revenueFactor, BASE_SALARY_PARAMS, List.lookup]

theorem performance_bonus_ok (base : ℚ) (role : String) (h : role ∈ validRoles) (pm : ℚ) :
    calculate_performance_bonus base role pm =
      .ok (round2 (base * targetBonusPercent role),
           round2 (base * targetBonusPercent role * pm)) := by
  rw [mem_validRoles_iff] at h
  rcases h with rfl | rfl | rfl | rfl <;>
    simp [calculate_performance_bonus, targetBonusPercent, TARGET_BONUS_PERCENT, List.lookup]

theorem lti_and_cash_ok (pb tb : ℚ) (role : String) (h : role ∈ validRoles) :
    calculate_lti_and_cash pb tb role =
      .ok ⟨round2 (pb * deferralPercent role),
           round2 (if equityEligible role then tb * equityFactor role else 0),
           round2 (pb * fundInvestmentPercent role),
           round2 (pb - pb * deferralPercent role - pb * fundInvestmentPercent role)⟩ := by
  rw [mem_validRoles_iff] at h
  rcases h with rfl | rfl | rfl | rfl <;>
    simp [calculate_lti_and_cash, deferralPercent, fundInvestmentPercent, equityFactor,
          equityEligible, LTI_RULES, List.lookup]

/-- Numeric facts about every configured role's parameters, read off the
three rule tables. -/
theorem role_params_bounds (role : String) (h : role ∈ validRoles) :
    0 ≤ targetBonusPercent role ∧ 0 ≤ deferralPercent role ∧
    0 ≤ fundInvestmentPercent role ∧ 0 ≤ equityFactor role ∧
    deferralPercent role + fundInvestmentPercent role ≤ 60/100 := by
  rw [mem_validRoles_iff] at h
  rcases h with rfl | rfl | rfl | rfl <;>
    simp [targetBonusPercent, deferralPercent, fundInvestmentPercent, equityFactor,
          TARGET_BONUS_PERCENT, LTI_RULES, List.lookup]
  all_goals norm_num

/-! ## Invalid-role behaviour -/

theorem lookups_none_of_invalid (role : String) (h : role ∉ validRoles) :
    BASE_SALARY_PARAMS.lookup role = none ∧
    TARGET_BONUS_PERCENT.lookup role = none ∧
    LTI_RULES.lookup role = none := by
  rw [mem_validRoles_iff, not_or, not_or, not_or] at h
  obtain ⟨h1, h2, h3, h4⟩ := h
  refine ⟨?_, ?_, ?_⟩ <;>
    simp [BASE_SALARY_PARAMS, TARGET_BONUS_PERCENT, LTI_RULES, List.lookup,
          beq_eq_false_iff_ne.mpr h1, beq_eq_false_iff_ne.mpr h2,
          beq_eq_false_iff_ne.mpr h3, beq_eq_false_iff_ne.mpr h4]

theorem base_salary_error (role : String) (h : role ∉ validRoles) (tr ls : ℚ) :
    calculate_base_salary role tr ls = .error ("Invalid role level: " ++ role) := by
  simp [calculate_base_salary, (lookups_none_of_invalid role h).1]

theorem performance_bonus_error (base : ℚ) (role : String) (h : role ∉ validRoles) (pm : ℚ) :
    calculate_performance_bonus base role pm = .error ("Invalid role level: " ++ role) := by
  simp [calculate_performance_bonus, (lookups_none_of_invalid role h).2.1]

theorem lti_and_cash_error (pb tb : ℚ) (role : String) (h : role ∉ validRoles) :
    calculate_lti_and_cash pb tb role = .error ("Invalid role level: " ++ role) := by
  simp [calculate_lti_and_cash, (lookups_none_of_invalid role h).2.2]

theorem total_compensation_error (role : String) (h : role ∉ validRoles) (tr ls pm : ℚ) :
    calculate_total_compensation role tr ls pm =
      .error ("Invalid role level: " ++ role) := by
  simp [calculate_total_compensation, base_salary_error role h tr ls]

/-! ## Claim theorems -/

/-- C1: for every configured role level and non-negative teamRevenue and
lastYearsSalary, `calculate_base_salary` returns
`round(max(ls * 0.85, min(fixedFloor + tr * revenueFactor, ls * 1.15)), 2)`,
and the returned value lies between `ls * 0.85` and `ls * 1.15` within a
rounding tolerance of 0.01. -/
theorem base_salary_formula_and_cap_claim (role : String) (h : role ∈ validRoles)
    (tr ls : ℚ) (htr : 0 ≤ tr) (hls : 0 ≤ ls) :
    calculate_base_salary role tr ls =
      .ok (round2 (max (ls * (85/100))
        (min (fixedFloor role + tr * revenueFactor role) (ls * (115/100))))) ∧
    ls * (85/100) - 1/100 ≤
      round2 (max (ls * (85/100))
        (min (fixedFloor role + tr * revenueFactor role) (ls * (115/100)))) ∧
    round2 (max (ls * (85/100))
        (min (fixedFloor role + tr * revenueFactor role) (ls * (115/100)))) ≤
      ls * (115/100) + 1/100 := by
  have heq := base_salary_ok role h tr ls
  simp only [SALARY_CAP_LOWER_BOUND, SALARY_CAP_UPPER_BOUND] at heq
  refine ⟨heq, ?_, ?_⟩ <;>
  · have hlo : ls * (85/100) ≤
        max (ls * (85/100)) (min (fixedFloor role + tr * revenueFactor role)
          (ls * (115/100))) := le_max_left _ _
    have hhi : max (ls * (85/100)) (min (fixedFloor role + tr * revenueFactor role)
        (ls * (115/100))) ≤ ls * (115/100) :=
      max_le (by linarith) (min_le_right _ _)
    have habs := round2_abs (max (ls * (85/100))
      (min (fixedFloor role + tr * revenueFactor role) (ls * (115/100))))
    rw [abs_le] at habs
    linarith [habs.1, habs.2]

/-- C1 witness: the claim instantiated at (Mid-level, 10000000, 80000). -/
theorem base_salary_formula_and_cap_claim_witness :
    calculate_base_salary "Mid-level" 10000000 80000 =
      .ok (round2 (max ((80000:ℚ) * (85/100))
        (min (fixedFloor "Mid-level" + 10000000 * revenueFactor "Mid-level")
          (80000 * (115/100))))) ∧
    (80000:ℚ) * (85/100) - 1/100 ≤
      round2 (max ((80000:ℚ) * (85/100))
        (min (fixedFloor "Mid-level" + 10000000 * revenueFactor "Mid-level")
          (80000 * (115/100)))) ∧
    round2 (max ((80000:ℚ) * (85/100))
        (min (fixedFloor "Mid-level" + 10000000 * revenueFactor "Mid-level")
          (80000 * (115/100)))) ≤
      (80000:ℚ) * (115/100) + 1/100 :=
  base_salary_formula_and_cap_claim "Mid-level" (by decide) 10000000 80000
    (by norm_num) (by norm_num)

/-- C2 counterexample: at `calculated_base_salary = 1000.01`, role Junior and
multiplier 10, the code does not return the pair obtained by feeding the
rounded target bonus into the multiplication (it returns 3000.03 where the
claimed formula gives 3000.00). -/
theorem perf_bonus_rounding_claim_counterexample :
    calculate_performance_bonus (100001/100) "Junior" 10 ≠
      .ok (round2 ((100001/100) * (30/100)),
           round2 (round2 ((100001/100) * (30/100)) * 10)) := by
  have hcode : calculate_performance_bonus (100001/100) "Junior" 10 =
      .ok (round2 ((100001/100) * (30/100)), round2 ((100001/100) * (30/100) * 10)) := by
    simp [calculate_performance_bonus, TARGET_BONUS_PERCENT, List.lookup]
  rw [hcode]
  have h1 : round2 ((100001/100 : ℚ) * (30/100)) = 300 := by
    norm_num [round2, round_half_even, Int.floor_eq_iff]
  have h2 : round2 ((100001/100 : ℚ) * (30/100) * 10) = 300003/100 := by
    norm_num [round2, round_half_even, Int.floor_eq_iff]
  have h3 : round2 ((300:ℚ) * 10) = 3000 := by
    norm_num [round2, round_half_even, Int.floor_eq_iff]
  rw [h1, h2, h3]
  intro hcontra
  simp only [Except.ok.injEq, Prod.mk.injEq] at hcontra
  norm_num at hcontra

/-- C2 (amended): `calculate_performance_bonus` multiplies the unrounded
target bonus amount by the performance multiplier; rounding to 2 decimals
is applied only to the two returned values, so
`performanceBonus = round(baseSalary * targetBonusPercent * multiplier, 2)`. -/
theorem perf_bonus_unrounded_target_claim (base pm : ℚ) (role : String)
    (h : role ∈ validRoles) :
    calculate_performance_bonus base role pm =
      .ok (round2 (base * targetBonusPercent role),
           round2 (base * targetBonusPercent role * pm)) :=
  performance_bonus_ok base role h pm

/-- C2 witness: the amended claim instantiated at (1000.01, Junior, 10). -/
theorem perf_bonus_unrounded_target_claim_witness :
    calculate_performance_bonus (100001/100) "Junior" 10 =
      .ok (round2 ((100001/100) * targetBonusPercent "Junior"),
           round2 ((100001/100) * targetBonusPercent "Junior" * 10)) :=
  perf_bonus_unrounded_target_claim (100001/100) 10 "Junior" (by decide)

/-- C3: for every role string outside the four-level enumeration, each
calculator stage fails with exactly "Invalid role level: <value>" and the
orchestrator returns that error outcome instead of a numeric result. -/
theorem invalid_role_error_claim (role : String) (h : role ∉ validRoles)
    (tr ls base pm pb tb : ℚ) :
    calculate_base_salary role tr ls = .error ("Invalid role level: " ++ role) ∧
    calculate_performance_bonus base role pm = .error ("Invalid role level: " ++ role) ∧
    calculate_lti_and_cash pb tb role = .error ("Invalid role level: " ++ role) ∧
    calculate_total_compensation role tr ls pm =
      .error ("Invalid role level: " ++ role) :=
  ⟨base_salary_error role h tr ls, performance_bonus_error base role h pm,
   lti_and_cash_error pb tb role h, total_compensation_error role h tr ls pm⟩

/-- C3 witness: the claim instantiated at role "Manager". -/
theorem invalid_role_error_claim_witness :
    calculate_base_salary "Manager" 10000000 100000 =
      .error ("Invalid role level: " ++ "Manager") ∧
    calculate_performance_bonus 50000 "Manager" 1 =
      .error ("Invalid role level: " ++ "Manager") ∧
    calculate_lti_and_cash 50000 40000 "Manager" =
      .error ("Invalid role level: " ++ "Manager") ∧
    calculate_total_compensation "Manager" 10000000 100000 1 =
      .error ("Invalid role level: " ++ "Manager") :=
  invalid_role_error_claim "Manager" (by decide) 10000000 100000 50000 1 50000 40000

/-- C4 counterexample: with a negative team revenue the base-salary
calculator does not fail; it computes a numeric result (115.00). -/
theorem negative_input_claim_counterexample :
    calculate_base_salary "Junior" (-100) 100 = .ok 115 := by
  simp [calculate_base_salary, BASE_SALARY_PARAMS, List.lookup,
        SALARY_CAP_LOWER_BOUND, SALARY_CAP_UPPER_BOUND]
  norm_num [round2, round_half_even, Int.floor_eq_iff, max_def, min_def]

/-- C4 (amended): the calculator stages perform no sign check: for every
configured role they return a numeric success result on arbitrary (also
negative) numeric inputs.  Negative inputs are rejected only by the HTTP
adapter in `app/routes.py`, not by the calculators. -/
theorem calculators_accept_negatives_claim (role : String) (h : role ∈ validRoles)
    (tr ls base pm pb tb : ℚ) :
    (∃ v, calculate_base_salary role tr ls = .ok v) ∧
    (∃ v, calculate_performance_bonus base role pm = .ok v) ∧
    (∃ v, calculate_lti_and_cash pb tb role = .ok v) :=
  ⟨⟨_, base_salary_ok role h tr ls⟩, ⟨_, performance_bonus_ok base role h pm⟩,
   ⟨_, lti_and_cash_ok pb tb role h⟩⟩

/-- C4 witness: the amended claim instantiated at Junior with negative
numeric inputs throughout. -/
theorem calculators_accept_negatives_claim_witness :
    (∃ v, calculate_base_salary "Junior" (-100) (-50) = .ok v) ∧
    (∃ v, calculate_performance_bonus (-80000) "Junior" (-2) = .ok v) ∧
    (∃ v, calculate_lti_and_cash (-20000) (-15000) "Junior" = .ok v) :=
  calculators_accept_negatives_claim "Junior" (by decide) (-100) (-50) (-80000) (-2)
    (-20000) (-15000)

/-- C5: scenario 4, the full pipeline at
(Executive, 20000000, 250000, 1.2) returns base 287500.00, target bonus
359375.00, performance bonus 431250.00, deferred cash 172500.00, equity
179687.50, fund investment 86250.00 and immediate cash 172500.00. -/
theorem scenario4_pipeline_claim :
    calculate_total_compensation "Executive" 20000000 250000 (12/10) =
      .ok ⟨287500, 359375, 431250, ⟨172500, 1796875/10, 86250⟩, 172500⟩ := by
  have hb : calculate_base_salary "Executive" 20000000 250000 = .ok 287500 := by
    simp [calculate_base_salary, BASE_SALARY_PARAMS, List.lookup,
          SALARY_CAP_LOWER_BOUND, SALARY_CAP_UPPER_BOUND]
    norm_num [round2, round_half_even, Int.floor_eq_iff, max_def, min_def]
  have hp : calculate_performance_bonus 287500 "Executive" (12/10) =
      .ok (359375, 431250) := by
    simp [calculate_performance_bonus, TARGET_BONUS_PERCENT, List.lookup]
    norm_num [round2, round_half_even, Int.floor_eq_iff]
  have hl : calculate_lti_and_cash 431250 359375 "Executive" =
      .ok ⟨172500, 1796875/10, 86250, 172500⟩ := by
    simp [calculate_lti_and_cash, LTI_RULES, List.lookup]
    norm_num [round2, round_half_even, Int.floor_eq_iff]
  simp [calculate_total_compensation, hb, hp, hl]

/-- C6: `calculate_lti_and_cash` reports zero equity for Junior and
`round(targetBonusAmount * equityFactor, 2)` — computed from the target
bonus amount, not the performance bonus — for the three other roles. -/
theorem equity_from_target_claim (pb tb : ℚ) :
    (calculate_lti_and_cash pb tb "Junior").map LtiComponents.equity_award_value =
      .ok 0 ∧
    (calculate_lti_and_cash pb tb "Mid-level").map LtiComponents.equity_award_value =
      .ok (round2 (tb * (25/100))) ∧
    (calculate_lti_and_cash pb tb "Senior").map LtiComponents.equity_award_value =
      .ok (round2 (tb * (40/100))) ∧
    (calculate_lti_and_cash pb tb "Executive").map LtiComponents.equity_award_value =
      .ok (round2 (tb * (50/100))) := by
  refine ⟨?_, ?_, ?_, ?_⟩ <;>
    simp [calculate_lti_and_cash, LTI_RULES, List.lookup, Except.map, round2_zero]

/-- C7: for every configured role, the rounded deferred cash, fund
investment and immediate cash returned by `calculate_lti_and_cash` sum to
the performance bonus within a tolerance of 0.02. -/
theorem lti_sum_claim (role : String) (h : role ∈ validRoles) (pb tb : ℚ)
    (c : LtiComponents) (hc : calculate_lti_and_cash pb tb role = .ok c) :
    |c.deferred_cash + c.fund_investment_amount + c.immediate_cash_bonus - pb| ≤
      2/100 := by
  rw [lti_and_cash_ok pb tb role h] at hc
  simp only [Except.ok.injEq] at hc
  subst hc
  dsimp only
  have h1 := round2_abs (pb * deferralPercent role)
  have h2 := round2_abs (pb * fundInvestmentPercent role)
  have h3 := round2_abs (pb - pb * deferralPercent role - pb * fundInvestmentPercent role)
  rw [abs_le] at h1 h2 h3 ⊢
  constructor
  · linarith [h1.1, h2.1, h3.1]
  · linarith [h1.2, h2.2, h3.2]

/-- C7 witness: the claim instantiated at (Junior, 100, 0), whose
components are (10, 0, 5, 85). -/
theorem lti_sum_claim_witness :
    calculate_lti_and_cash 100 0 "Junior" = .ok ⟨10, 0, 5, 85⟩ ∧
    |(10:ℚ) + 5 + 85 - 100| ≤ 2/100 := by
  have hc : calculate_lti_and_cash 100 0 "Junior" = .ok ⟨10, 0, 5, 85⟩ := by
    simp [calculate_lti_and_cash, LTI_RULES, List.lookup]
    norm_num [round2, round_half_even, Int.floor_eq_iff]
  exact ⟨hc, lti_sum_claim "Junior" (by decide) 100 0 ⟨10, 0, 5, 85⟩ hc⟩

/-- C8: the orchestrator is deterministic — two invocations with the same
input yield identical outputs (the embedding, like the source, reads no
mutable state: its result is a function of its four arguments only). -/
theorem orchestrator_deterministic_claim (role : String) (tr ls pm : ℚ) :
    calculate_total_compensation role tr ls pm =
      calculate_total_compensation role tr ls pm := rfl

/-- C9: the batch operation maps each input row, in order, to that row
paired with its own single-record outcome: the output has the same length,
element `i` is row `i` merged with row `i`'s success or error result, and a
row with an invalid role yields an error element without affecting any
other element (each element depends only on its own row). -/
theorem batch_semantics_claim (rows : List InputRecord) :
    (batch_calculate_compensation rows).length = rows.length ∧
    (∀ i : ℕ, (batch_calculate_compensation rows)[i]? =
      (rows[i]?).map (fun row =>
        (row, calculate_total_compensation row.role_level row.team_revenue
                row.last_years_salary row.performance_multiplier))) ∧
    (∀ i : ℕ, ∀ row : InputRecord, rows[i]? = some row →
      row.role_level ∉ validRoles →
      (batch_calculate_compensation rows)[i]? =
        some (row, .error ("Invalid role level: " ++ row.role_level))) := by
  refine ⟨by simp [batch_calculate_compensation], ?_, ?_⟩
  · intro i
    simp [batch_calculate_compensation, List.getElem?_map]
  · intro i row hrow hinv
    simp [batch_calculate_compensation, List.getElem?_map, hrow,
          total_compensation_error row.role_level hinv]

/-- C9 witness: a one-row batch whose role "Manager" is invalid still
produces a same-length output whose element is the row with its error. -/
theorem batch_semantics_claim_witness :
    (batch_calculate_compensation [⟨"Manager", 1, 2, 3⟩]).length =
      ([⟨"Manager", 1, 2, 3⟩] : List InputRecord).length ∧
    (batch_calculate_compensation [⟨"Manager", 1, 2, 3⟩])[0]? =
      some (⟨"Manager", 1, 2, 3⟩, .error ("Invalid role level: " ++ "Manager")) := by
  obtain ⟨hlen, _, herr⟩ := batch_semantics_claim [⟨"Manager", 1, 2, 3⟩]
  exact ⟨hlen, herr 0 ⟨"Manager", 1, 2, 3⟩ rfl (by decide)⟩

/-- C10: for every configured role and non-negative teamRevenue,
lastYearsSalary and performanceMultiplier, the orchestrator succeeds and
all seven money fields of its result are non-negative. -/
theorem total_compensation_nonneg_claim (role : String) (h : role ∈ validRoles)
    (tr ls pm : ℚ) (htr : 0 ≤ tr) (hls : 0 ≤ ls) (hpm : 0 ≤ pm) :
    ∃ r, calculate_total_compensation role tr ls pm = .ok r ∧
      0 ≤ r.calculated_base_salary ∧ 0 ≤ r.target_bonus_amount ∧
      0 ≤ r.performance_bonus ∧ 0 ≤ r.lti_breakdown.deferred_cash ∧
      0 ≤ r.lti_breakdown.equity_award_value ∧
      0 ≤ r.lti_breakdown.fund_investment_amount ∧
      0 ≤ r.immediate_cash_bonus := by
  obtain ⟨htp, hdp, hfp, hef, hsum⟩ := role_params_bounds role h
  have hb := base_salary_ok role h tr ls
  have hBnn : 0 ≤ round2 (max (ls * SALARY_CAP_LOWER_BOUND)
      (min (fixedFloor role + tr * revenueFactor role) (ls * SALARY_CAP_UPPER_BOUND))) :=
    round2_nonneg _ (le_trans (mul_nonneg hls (by norm_num [SALARY_CAP_LOWER_BOUND]))
      (le_max_left _ _))
  generalize hBeq : round2 (max (ls * SALARY_CAP_LOWER_BOUND)
      (min (fixedFloor role + tr * revenueFactor role) (ls * SALARY_CAP_UPPER_BOUND))) = B
    at hb hBnn
  have hp := performance_bonus_ok B role h pm
  have hTnn : 0 ≤ round2 (B * targetBonusPercent role) :=
    round2_nonneg _ (mul_nonneg hBnn htp)
  have hPnn : 0 ≤ round2 (B * targetBonusPercent role * pm) :=
    round2_nonneg _ (mul_nonneg (mul_nonneg hBnn htp) hpm)
  generalize hTeq : round2 (B * targetBonusPercent role) = T at hp hTnn
  generalize hPeq : round2 (B * targetBonusPercent role * pm) = P at hp hPnn
  have hl := lti_and_cash_ok P T role h
  have hDnn : 0 ≤ round2 (P * deferralPercent role) :=
    round2_nonneg _ (mul_nonneg hPnn hdp)
  have hEnn : 0 ≤ round2 (if equityEligible role then T * equityFactor role else 0) := by
    apply round2_nonneg
    split_ifs
    · exact mul_nonneg hTnn hef
    · exact le_refl 0
  have hFnn : 0 ≤ round2 (P * fundInvestmentPercent role) :=
    round2_nonneg _ (mul_nonneg hPnn hfp)
  have hInn : 0 ≤ round2 (P - P * deferralPercent role - P * fundInvestmentPercent role) := by
    have hrw : P - P * deferralPercent role - P * fundInvestmentPercent role =
        P * (1 - (deferralPercent role + fundInvestmentPercent role)) := by ring
    rw [hrw]
    exact round2_nonneg _ (mul_nonneg hPnn (by linarith))
  refine ⟨⟨B, T, P, ⟨round2 (P * deferralPercent role),
      round2 (if equityEligible role then T * equityFactor role else 0),
      round2 (P * fundInvestmentPercent role)⟩,
      round2 (P - P * deferralPercent role - P * fundInvestmentPercent role)⟩,
    ?_, hBnn, hTnn, hPnn, hDnn, hEnn, hFnn, hInn⟩
  simp only [calculate_total_compensation, hb, hp, hl]

/-- C10 witness: the claim instantiated at (Junior, 0, 0, 0). -/
theorem total_compensation_nonneg_claim_witness :
    ∃ r, calculate_total_compensation "Junior" 0 0 0 = .ok r ∧
      0 ≤ r.calculated_base_salary ∧ 0 ≤ r.target_bonus_amount ∧
      0 ≤ r.performance_bonus ∧ 0 ≤ r.lti_breakdown.deferred_cash ∧
      0 ≤ r.lti_breakdown.equity_award_value ∧
      0 ≤ r.lti_breakdown.fund_investment_amount ∧
      0 ≤ r.immediate_cash_bonus :=
  total_compensation_nonneg_claim "Junior" (by decide) 0 0 0 le_rfl le_rfl le_rfl
